import Mathlib

/-!
Shallow embedding of the reservation core of `app.py` (뜨란채 예약 시스템):
calendar utilities, weekly grade-assignment table, booking eligibility,
and the transactional reservation store.

Modelling conventions:
* Calendar dates are proleptic-Gregorian ordinals (`Nat`, day 1 = 0001-01-01),
  mirroring Python `date.toordinal`; `mkDate y m d` converts calendar notation
  to the ordinal, `ordToYMD` converts back, and `timedelta` arithmetic is
  ordinal arithmetic.
* Times of day are minutes since midnight (`Nat`); a timezone-aware `datetime`
  is a pair `(ordinal, minutes since midnight)`.  Every `datetime` the program
  builds lives in the single configured zone (KST), so `datetime` comparison
  is lexicographic on the pair.
* The Firestore document store is a keyed map `String → Option Reservation`
  (a document store holds at most one document per key, which is the
  structural form of the at-most-one-reservation-per-slot-id invariant).
  The conditional-write transaction body intended by `put_reservation` is
  modelled separately as `put_reservation_txn_op`; the program itself never
  runs it, because `db.transaction()(txn_op)` calls the non-callable
  `Transaction` object — see `put_reservation`.
* `hashlib.sha256(pin.encode()).hexdigest()` is external library code; it is
  modelled by an injective stand-in, since `app.py` only ever compares
  digests for equality.
-/

namespace Dran

/-! ## Formatting helpers -/

def pad2 (n : Nat) : String := if n < 10 then "0" ++ toString n else toString n

def pad4 (n : Nat) : String :=
  if n < 10 then "000" ++ toString n
  else if n < 100 then "00" ++ toString n
  else if n < 1000 then "0" ++ toString n
  else toString n

/-! ## Calendar (Python `datetime.date`) -/

def isLeap (y : Nat) : Bool := (y % 4 == 0 && y % 100 != 0) || y % 400 == 0

/-- Cumulative day counts before each month in a non-leap year, indexed by
`month - 1`. -/
def daysBeforeMonthTable : List Nat :=
  [0, 31, 59, 90, 120, 151, 181, 212, 243, 273, 304, 334]

def daysBeforeMonth (y m : Nat) : Nat :=
  daysBeforeMonthTable.getD (m - 1) 0 + (if 2 < m && isLeap y then 1 else 0)

def daysBeforeYear (y : Nat) : Nat :=
  365 * (y - 1) + (y - 1) / 4 - (y - 1) / 100 + (y - 1) / 400

/-- Python `date(y, m, d).toordinal()`. -/
def mkDate (y m d : Nat) : Nat := daysBeforeYear y + daysBeforeMonth y m + d

/-- Python `date.weekday()` on an ordinal: Monday = 0 (ordinal 1 was a
Monday). -/
def weekday (n : Nat) : Nat := (n + 6) % 7

def daysInMonthOf (leap : Bool) (m : Nat) : Nat :=
  if m = 2 then (if leap then 29 else 28)
  else if m = 4 ∨ m = 6 ∨ m = 9 ∨ m = 11 then 30
  else 31

/-- Inverse of `mkDate` on valid ordinals (CPython `datetime._ord2ymd`),
returning `(year, month, day)`. -/
def ordToYMD (ord : Nat) : Nat × Nat × Nat :=
  let n0 := ord - 1
  let n400 := n0 / 146097
  let r400 := n0 % 146097
  let n100 := r400 / 36524
  let r100 := r400 % 36524
  let n4 := r100 / 1461
  let r4 := r100 % 1461
  let n1 := r4 / 365
  let n := r4 % 365
  let year := n400 * 400 + 1 + n100 * 100 + n4 * 4 + n1
  if n1 = 4 ∨ n100 = 4 then (year - 1, 12, 31)
  else
    let leap := n1 == 3 && (n4 != 24 || n100 == 3)
    let month := (n + 50) / 32
    let preceding := daysBeforeMonthTable.getD (month - 1) 0 +
      (if 2 < month && leap then 1 else 0)
    let mp :=
      if n < preceding then
        (month - 1, preceding - daysInMonthOf leap (month - 1))
      else (month, preceding)
    (year, mp.1, n - mp.2 + 1)

/-- Python `date.isoformat()` of an ordinal. -/
def iso (n : Nat) : String :=
  let ymd := ordToYMD n
  pad4 ymd.1 ++ "-" ++ pad2 ymd.2.1 ++ "-" ++ pad2 ymd.2.2

/-- `format_hhmm(t)`. -/
def format_hhmm (t : Nat) : String := pad2 (t / 60) ++ ":" ++ pad2 (t % 60)

/-- Python `dt.strftime("%m/%d %H:%M")` for a KST datetime
`(ordinal, minutes)`. -/
def format_mmdd_hhmm (dt : Nat × Nat) : String :=
  let ymd := ordToYMD dt.1
  pad2 ymd.2.1 ++ "/" ++ pad2 ymd.2.2 ++ " " ++ format_hhmm dt.2

/-- `week_monday(d) = d - timedelta(days=d.weekday())`. -/
def week_monday (d : Nat) : Nat := d - weekday d

/-- `open_time_for_week(monday)`: 전주 목요일 07:00 KST, i.e. the datetime
`(monday - 4 days, 07:00)`. -/
def open_time_for_week (monday : Nat) : Nat × Nat := (monday - 4, 7 * 60)

/-- KST `datetime` comparison `a <= b` (lexicographic, both in the same
zone). -/
def dt_le (a b : Nat × Nat) : Bool :=
  decide (a.1 < b.1 ∨ (a.1 = b.1 ∧ a.2 ≤ b.2))

/-- Python `str.strip()`: drop leading and trailing whitespace (structural
model over the character list). -/
def pyStrip (s : String) : String :=
  ⟨(((s.data.dropWhile Char.isWhitespace).reverse.dropWhile
      Char.isWhitespace).reverse)⟩

/-- Stand-in for `hash_pin`, which is
`hashlib.sha256(pin.encode()).hexdigest()`: the digest itself is external
library code and `app.py` only compares digests for equality, so any
injective encoding is a faithful model. -/
def hash_pin (pin : String) : String := "sha256:" ++ pin

/-! ## `build_period_table`: 시작 08:50, 수업 40분, 쉬는 10분 -/

/-- `build_period_table(max_periods)`: entries `(period, start, end)` in
minutes since midnight; the running cursor advances by 40 minutes of lesson
plus a 10 minute break after every period except the last. -/
def build_period_table (max_periods : Nat) : List (Nat × Nat × Nat) :=
  ((List.range max_periods).foldl
    (fun (st : List (Nat × Nat × Nat) × Nat) i =>
      let p := i + 1
      let lessonEnd := st.2 + 40
      let nextCur := if p ≠ max_periods then lessonEnd + 10 else lessonEnd
      (st.1 ++ [(p, st.2, lessonEnd)], nextCur))
    ([], 8 * 60 + 50)).1

/-- Dictionary lookup `per_table[p]` (defaulting instead of `KeyError`;
the program only looks up periods 1–6, which are present). -/
def period_table_get (t : List (Nat × Nat × Nat)) (p : Nat) : Nat × Nat :=
  ((t.find? (fun e => e.1 == p)).map (fun e => (e.2.1, e.2.2))).getD (0, 0)

/-! ## Python `dict` as an association list -/

def dictInsert (d : List (String × Int)) (k : String) (v : Int) :
    List (String × Int) :=
  match d with
  | [] => [(k, v)]
  | p :: rest => if p.1 = k then (k, v) :: rest else p :: dictInsert rest k v

def dictGet (d : List (String × Int)) (k : String) : Option Int :=
  match d with
  | [] => none
  | p :: rest => if p.1 = k then some p.2 else dictGet rest k

/-- Python dict merge of two dicts: insert every item of the right dict
into the left one, right-hand items replacing left-hand items key by key. -/
def dictMerge (a b : List (String × Int)) : List (String × Int) :=
  b.foldl (fun d kv => dictInsert d kv.1 kv.2) a

/-! ## Weekly grade-assignment table -/

/-- `ASSIGN_DEFAULT_SEQUENCE`: the 21-week default sequence compiled into the
code (`None` marks a week with no assigned grade). -/
def ASSIGN_DEFAULT_SEQUENCE : List (Option Int) :=
  [some 1, some 1, some 1, some 2, none, some 2, some 3, some 3, some 6,
   some 5, some 4, some 1, some 1, some 2, some 2, some 3, some 3, some 4,
   some 5, some 6, some 6]

/-- `ASSIGN_DEFAULT_START = date(2025, 9, 8)`, 표 기준 첫 월요일. -/
def ASSIGN_DEFAULT_START : Nat := mkDate 2025 9 8

/-- `ASSIGN_DEFAULTS`: the enumerate loop over the default sequence, keying
each non-`None` grade by the isoformat of `start + i` weeks. -/
def ASSIGN_DEFAULTS : List (String × Int) :=
  ASSIGN_DEFAULT_SEQUENCE.enum.foldl
    (fun d ig =>
      match ig.2 with
      | none => d
      | some g => dictInsert d (iso (ASSIGN_DEFAULT_START + 7 * ig.1)) g)
    []

/-- `ASSIGN`: the dict merge of the compiled defaults under the persisted
`weekly_assignments` document (DB 값이 우선); the persisted overrides are the
argument, since the DB contents are external input. -/
def ASSIGN (overrides : List (String × Int)) : List (String × Int) :=
  dictMerge ASSIGN_DEFAULTS overrides

/-- `assigned_grade_for_week(monday) = ASSIGN.get(monday.isoformat())`. -/
def assigned_grade_for_week (monday : Nat) (overrides : List (String × Int)) :
    Option Int :=
  dictGet (ASSIGN overrides) (iso monday)

/-! ## Reservation store (Firestore collections `reservations` / `blocks`) -/

/-- The `Slot` dataclass: `day` is a date ordinal, `start`/`end` are minutes
since midnight. -/
structure Slot where
  day : Nat
  period : Nat
  start : Nat
  endT : Nat
deriving DecidableEq

/-- `Slot.id = f"{day.isoformat()}_P{period}"`. -/
def Slot.id (s : Slot) : String := iso s.day ++ "_P" ++ toString s.period

/-- The payload written by `put_reservation` (`endT` models the `"end"` key;
`created_at`/`updated_at` hold the server timestamp). -/
structure Reservation where
  date : String
  period : Nat
  start : String
  endT : String
  grade : Int
  class_no : Int
  purpose : String
  pin_hash : String
  created_at : Nat
  updated_at : Nat
deriving DecidableEq

/-- The `reservations` collection: at most one document per key. -/
abbrev Store := String → Option Reservation

def store_set (s : Store) (k : String) (v : Reservation) : Store :=
  fun k2 => if k2 = k then some v else s k2

def store_delete (s : Store) (k : String) : Store :=
  fun k2 => if k2 = k then none else s k2

def emptyStore : Store := fun _ => none

/-- The payload dict built inside the `put_reservation` transaction: a full
overwrite denormalizing the slot and re-hashing the PIN. -/
def reservation_payload (slot : Slot) (grade class_no : Int)
    (purpose pin : String) (ts : Nat) : Reservation :=
  ⟨iso slot.day, slot.period, format_hhmm slot.start, format_hhmm slot.endT,
   grade, class_no, pyStrip purpose, hash_pin pin, ts, ts⟩

/-- The body `txn_op` of the transaction `put_reservation` intends: read
the snapshot; if it exists and the call is not forced, raise (modelled as
`Except.error` with the `RuntimeError` message); otherwise write the full
payload.  `ts` stands for `firestore.SERVER_TIMESTAMP`.  The program never
executes this body: see `put_reservation`. -/
def put_reservation_txn_op (store : Store) (slot : Slot)
    (grade class_no : Int) (purpose pin : String) (force : Bool) (ts : Nat) :
    Except String Store :=
  if (store slot.id).isSome && !force then
    Except.error "이미 예약된 슬롯입니다."
  else
    Except.ok (store_set store slot.id
      (reservation_payload slot grade class_no purpose pin ts))

set_option linter.unusedVariables false in
/-- `put_reservation(slot, grade, class_no, purpose, pin, force=force)`:
the source runs its transaction as `db.transaction()(txn_op)`, with a
`# type: ignore` on that line.  `db.transaction()` returns a
`google.cloud.firestore.Transaction`, which defines no `__call__` (the
callable wrapper is what `firestore.transactional` returns, not the
transaction), so this call raises
`TypeError("'Transaction' object is not callable")` before `txn_op` ever
runs, and the bare `except Exception as e` converts it into
`(False, str(e))`.  Hence every call returns the same failure value, the
occupancy check never happens, and nothing is ever written.  The function
is still total: no exception crosses this boundary. -/
def put_reservation (store : Store) (slot : Slot) (grade class_no : Int)
    (purpose pin : String) (force : Bool) (ts : Nat) :
    Store × Bool × String :=
  (store, false, "\x27Transaction\x27 object is not callable")

/-- The non-admin PIN gate of `delete_reservation`: the code guards
`not pin or hash_pin(pin) != data.get("pin_hash")` (Python truthiness:
`None` and the empty string are both falsy, i.e. no PIN supplied); this
predicate is its negation. -/
def pin_matches (pin : Option String) (data : Reservation) : Bool :=
  match pin with
  | none => false
  | some p => !(p == "") && (hash_pin p == data.pin_hash)

/-- `delete_reservation(slot_id, pin, admin=admin)`. -/
def delete_reservation (store : Store) (slot_id : String)
    (pin : Option String) (admin : Bool) : Store × Bool × String :=
  match store slot_id with
  | none => (store, false, "해당 슬롯에 예약이 없습니다.")
  | some data =>
    if admin then
      (store_delete store slot_id, true, "관리자 권한으로 삭제했습니다.")
    else if pin_matches pin data then
      (store_delete store slot_id, true, "예약이 삭제되었습니다.")
    else
      (store, false, "비밀번호가 일치하지 않습니다.")

/-- A document of the `blocks` collection (`set_block` payload). -/
structure Block where
  date : String
  period : Nat
  reason : String
  admin : String
  created_at : Nat
deriving DecidableEq

abbrev BlockStore := String → Option Block

def emptyBlocks : BlockStore := fun _ => none

/-- `set_block(slot, reason, admin_name)`. -/
def set_block (blocks : BlockStore) (slot : Slot)
    (reason admin_name : String) (ts : Nat) : BlockStore × Bool × String :=
  (fun k => if k = slot.id then
      some ⟨iso slot.day, slot.period, pyStrip reason, pyStrip admin_name, ts⟩
    else blocks k,
   true, "해당 슬롯을 차단했습니다.")

/-- `clear_block(slot_id)`. -/
def clear_block (blocks : BlockStore) (slot_id : String) :
    BlockStore × Bool × String :=
  match blocks slot_id with
  | some _ =>
    (fun k => if k = slot_id then none else blocks k, true, "차단을 해제했습니다.")
  | none => (blocks, false, "차단 상태가 아닙니다.")

/-! ## Booking eligibility (`can_book`) and the 예약하기 grid cell -/

/-- Python truthiness of the optional assigned grade (`if assigned`):
`None` and `0` are falsy. -/
def assigned_truthy (assigned : Option Int) : Bool :=
  match assigned with
  | none => false
  | some g => g != 0

/-- `can_book(user_grade)`: the script closes over `is_admin`, `assigned`
(`assigned_grade_for_week(monday)`) and `open_dt`
(`open_time_for_week(monday)`); they are explicit parameters here, and `now`
stands for `kst_now()`. -/
def can_book (is_admin : Bool) (assigned : Option Int)
    (open_dt now : Nat × Nat) (user_grade : Int) : Bool × String :=
  if is_admin then (true, "관리자 권한으로 예약 가능")
  else if assigned_truthy assigned && (assigned == some user_grade) then
    (true, "배정학년 우선 예약 기간")
  else if dt_le open_dt now then (true, "비배정학년 예약 오픈 기간")
  else
    (false, "비배정학년은 " ++ format_mmdd_hhmm open_dt ++ " 이후 예약 가능")

/-- `SUMMER_BREAK_START = date(2025, 9, 1)`. -/
def SUMMER_BREAK_START : Nat := mkDate 2025 9 1

/-- `SUMMER_BREAK_END = date(2025, 9, 10)`. -/
def SUMMER_BREAK_END : Nat := mkDate 2025 9 10

/-- The form gate on the 예약 button:
`pin and pin.isdigit() and len(pin) == 4`. -/
def valid_pin (pin : String) : Bool :=
  !(pin == "") && pin.data.all Char.isDigit && (pin.length == 4)

/-- One grid cell of the 예약하기 mode for day `d`, period `p`, following the
branch order of the script: 여름방학 blackout → 수요일 6교시 → 관리자 차단
(`blocks`) → already reserved → empty cell, whose 예약 button is enabled only
when `can_book` allows and purpose/PIN pass the form gate.  A disabled or
absent 예약 button is modelled as a failure value carrying the rendered
label, and a confirmed booking as the `put_reservation` call the confirm
button makes, with `force = is_admin`. -/
def grid_cell_book (store : Store) (blocks : BlockStore)
    (overrides : List (String × Int)) (monday d p : Nat) (is_admin : Bool)
    (now : Nat × Nat) (sel_grade sel_class : Int) (purpose pin : String)
    (ts : Nat) : Store × Bool × String :=
  let pt := period_table_get (build_period_table 6) p
  let slot : Slot := ⟨d, p, pt.1, pt.2⟩
  let assigned := assigned_grade_for_week monday overrides
  let open_dt := open_time_for_week monday
  if SUMMER_BREAK_START ≤ d ∧ d ≤ SUMMER_BREAK_END then
    (store, false, "여름방학")
  else if weekday d == 2 && p == 6 then
    (store, false, "수요일 6교시 예약 불가")
  else if (blocks slot.id).isSome then
    (store, false, "관리자 차단")
  else if (store slot.id).isSome then
    (store, false, "이미 예약된 슬롯입니다.")
  else
    let cb := can_book is_admin assigned open_dt now sel_grade
    if cb.1 && !(purpose == "") && valid_pin pin then
      put_reservation store slot sel_grade sel_class purpose pin is_admin ts
    else (store, false, cb.2)

/-! ## Concrete fixtures used by the witnesses -/

/-- Fixture: 2025-09-15 period 3, with the generated period-3 times
10:30–11:10 (minutes 630–670). -/
def demoSlot : Slot := ⟨mkDate 2025 9 15, 3, 630, 670⟩

def demoRes : Reservation := reservation_payload demoSlot 1 1 "과학 수업" "1234" 0

def demoStore : Store := store_set emptyStore demoSlot.id demoRes

/-! ## Dictionary lemmas -/

theorem dictGet_dictInsert (d : List (String × Int)) (k : String) (v : Int)
    (k2 : String) :
    dictGet (dictInsert d k v) k2 = if k = k2 then some v else dictGet d k2 := by
  induction d with
  | nil => simp [dictInsert, dictGet]
  | cons p rest ih =>
    by_cases hp : p.1 = k
    · subst hp
      by_cases h : p.1 = k2
      · simp [dictInsert, dictGet, h]
      · simp [dictInsert, dictGet, h]
    · by_cases h2 : p.1 = k2
      · have hk : ¬ k = k2 := fun hh => hp (hh ▸ h2)
        simp [dictInsert, dictGet, hp, h2, hk, Ne.symm hk]
      · simp [dictInsert, dictGet, hp, h2, ih]

theorem dictGet_eq_none_of_not_mem (d : List (String × Int)) (k : String)
    (h : k ∉ d.map Prod.fst) : dictGet d k = none := by
  induction d with
  | nil => rfl
  | cons p rest ih =>
    simp only [List.map_cons, List.mem_cons, not_or] at h
    have hp : ¬ p.1 = k := fun hh => h.1 hh.symm
    simp [dictGet, hp, ih h.2]

theorem dictGet_dictMerge (b : List (String × Int))
    (hb : (b.map Prod.fst).Nodup) (a : List (String × Int)) (k : String) :
    dictGet (dictMerge a b) k =
      match dictGet b k with
      | some v => some v
      | none => dictGet a k := by
  induction b generalizing a with
  | nil => simp [dictMerge, dictGet]
  | cons kv rest ih =>
    simp only [List.map_cons, List.nodup_cons] at hb
    have hstep : dictMerge a (kv :: rest) =
        dictMerge (dictInsert a kv.1 kv.2) rest := rfl
    rw [hstep, ih hb.2]
    by_cases h : kv.1 = k
    · subst h
      have hr : dictGet rest kv.1 = none :=
        dictGet_eq_none_of_not_mem rest kv.1 hb.1
      simp [dictGet, hr, dictGet_dictInsert]
    · cases hrk : dictGet rest k with
      | some v => simp [dictGet, h, hrk]
      | none => simp [dictGet, h, hrk, dictGet_dictInsert]

/-! ## Claim theorems -/

/-- Claim C1 (code bug): the claimed exactly-one-winner race never happens
in the program.  Two un-forced `put_reservation` calls racing on the free
slot 2025-09-15 P3, in either serialization: both return the TypeError
failure value produced by the invalid `db.transaction()(txn_op)` invocation
(the `Transaction` object is not callable, so the transaction body with its
occupancy check never runs), and no record is stored — zero winners instead
of exactly one, against the claim's core property.  The intended body is
`put_reservation_txn_op`, which the program never reaches. -/
theorem put_reservation_race_bug :
    (put_reservation emptyStore demoSlot 1 1 "과학" "1111" false 0).2 =
      (false, "\x27Transaction\x27 object is not callable") ∧
    (put_reservation
        (put_reservation emptyStore demoSlot 1 1 "과학" "1111" false 0).1
        demoSlot 2 3 "독서" "2222" false 1).2 =
      (false, "\x27Transaction\x27 object is not callable") ∧
    (put_reservation
        (put_reservation emptyStore demoSlot 1 1 "과학" "1111" false 0).1
        demoSlot 2 3 "독서" "2222" false 1).1 demoSlot.id = none :=
  ⟨rfl, rfl, rfl⟩

/-- Claim C2 (code bug): `put_reservation` never returns success, never
writes, and never returns the already-reserved message: every call — free
or occupied slot, forced or not — returns the store unchanged together with
the TypeError failure value, because `db.transaction()(txn_op)` raises
before the transaction body runs.  Only the claim's "never propagates an
exception" fragment holds: the failure is returned as a value. -/
theorem put_reservation_always_fails (store : Store) (slot : Slot)
    (grade class_no : Int) (purpose pin : String) (force : Bool) (ts : Nat) :
    put_reservation store slot grade class_no purpose pin force ts =
      (store, false, "\x27Transaction\x27 object is not callable") := rfl

/-- Claim C10 (code bug): an un-forced call on a free slot with unvalidated
inputs (whitespace-only purpose, non-digit 3-letter PIN) does not succeed
and stores nothing: it fails with the TypeError value raised by the app's
own invalid transaction invocation — not by the storage backend, and not
because a record exists (the slot is free). -/
theorem put_reservation_free_slot_fails :
    put_reservation emptyStore demoSlot 99 0 "   " "abc" false 0 =
      (emptyStore, false, "\x27Transaction\x27 object is not callable") ∧
    (put_reservation emptyStore demoSlot 99 0 "   " "abc" false 0).1
      demoSlot.id = none :=
  ⟨rfl, rfl⟩


/-- Claim C3: `delete_reservation` fails with the nothing-to-delete message
when no record exists; with `admin = true` it deletes unconditionally; with
`admin = false` it deletes exactly when a PIN is supplied (in the source's
sense: a non-`None`, non-empty string, cf. `not pin`) whose hash equals the
stored `pin_hash`, and otherwise fails with the PIN-mismatch message leaving
the record in place; hence two successive calls with the correct PIN give
first success, then the not-found failure. -/
theorem delete_reservation_spec (store : Store) (sid : String)
    (pin : Option String) :
    (store sid = none → ∀ admin,
      delete_reservation store sid pin admin =
        (store, false, "해당 슬롯에 예약이 없습니다.")) ∧
    (∀ r, store sid = some r →
      delete_reservation store sid pin true =
        (store_delete store sid, true, "관리자 권한으로 삭제했습니다.")) ∧
    (∀ r p, store sid = some r → pin = some p → p ≠ "" →
      hash_pin p = r.pin_hash →
      delete_reservation store sid pin false =
        (store_delete store sid, true, "예약이 삭제되었습니다.")) ∧
    (∀ r, store sid = some r → pin_matches pin r = false →
      delete_reservation store sid pin false =
        (store, false, "비밀번호가 일치하지 않습니다.")) ∧
    (∀ r p, store sid = some r → pin = some p → p ≠ "" →
      hash_pin p = r.pin_hash →
      delete_reservation (delete_reservation store sid pin false).1 sid pin
          false =
        ((delete_reservation store sid pin false).1, false,
         "해당 슬롯에 예약이 없습니다.")) := by
  have hmatch : ∀ (r : Reservation) (p : String), p ≠ "" →
      hash_pin p = r.pin_hash → pin_matches (some p) r = true := by
    intro r p hne hh
    simp [pin_matches, hne, hh]
  have hdel : ∀ (r : Reservation) (p : String), store sid = some r →
      pin = some p → p ≠ "" → hash_pin p = r.pin_hash →
      delete_reservation store sid pin false =
        (store_delete store sid, true, "예약이 삭제되었습니다.") := by
    intro r p hr hp hne hh
    subst hp
    simp [delete_reservation, hr, hmatch r p hne hh]
  refine ⟨?_, ?_, hdel, ?_, ?_⟩
  · intro h admin
    simp [delete_reservation, h]
  · intro r hr
    simp [delete_reservation, hr]
  · intro r hr hpm
    simp [delete_reservation, hr, hpm]
  · intro r p hr hp hne hh
    rw [hdel r p hr hp hne hh]
    simp [delete_reservation, store_delete]

/-- Claim C3 witness: on a store holding the 2025-09-15 P3 record with PIN
1234 — correct-PIN delete succeeds, wrong-PIN delete fails and changes
nothing, and repeating the correct-PIN delete hits not-found. -/
theorem delete_reservation_spec_witness :
    delete_reservation demoStore demoSlot.id (some "1234") false =
      (store_delete demoStore demoSlot.id, true, "예약이 삭제되었습니다.") ∧
    delete_reservation demoStore demoSlot.id (some "0000") false =
      (demoStore, false, "비밀번호가 일치하지 않습니다.") ∧
    delete_reservation
        (delete_reservation demoStore demoSlot.id (some "1234") false).1
        demoSlot.id (some "1234") false =
      ((delete_reservation demoStore demoSlot.id (some "1234") false).1,
       false, "해당 슬롯에 예약이 없습니다.") :=
  ⟨(delete_reservation_spec demoStore demoSlot.id (some "1234")).2.2.1
      demoRes "1234" (by decide) rfl (by decide) rfl,
   (delete_reservation_spec demoStore demoSlot.id (some "0000")).2.2.2.1
      demoRes (by decide) (by decide),
   (delete_reservation_spec demoStore demoSlot.id (some "1234")).2.2.2.2
      demoRes "1234" (by decide) rfl (by decide) rfl⟩

/-- Claim C4: for every slot whose date lies in the inclusive blackout range
2025-09-01 – 2025-09-10, the booking grid rejects the reservation attempt
for every grade and every actor (the 여름방학 branch comes first in the cell,
before the booking button, so a non-forced write never reaches
`put_reservation`; the statement even covers `is_admin = true`, whose grid
cell is equally blocked), and the reservation store is left untouched. -/
theorem blackout_blocks_booking (store : Store) (blocks : BlockStore)
    (overrides : List (String × Int)) (monday d p : Nat) (is_admin : Bool)
    (now : Nat × Nat) (sel_grade sel_class : Int) (purpose pin : String)
    (ts : Nat) (h1 : SUMMER_BREAK_START ≤ d) (h2 : d ≤ SUMMER_BREAK_END) :
    grid_cell_book store blocks overrides monday d p is_admin now sel_grade
      sel_class purpose pin ts = (store, false, "여름방학") := by
  simp [grid_cell_book, h1, h2]

/-- Claim C4 witness: Wednesday 2025-09-03, period 1, non-admin grade 3 with
a well-formed form entry — the cell is blackout-blocked and the empty store
is unchanged. -/
theorem blackout_blocks_booking_witness :
    grid_cell_book emptyStore emptyBlocks [] (mkDate 2025 9 1)
      (mkDate 2025 9 3) 1 false (mkDate 2025 9 3, 600) 3 1 "과학 수업" "1234" 0 =
      (emptyStore, false, "여름방학") :=
  blackout_blocks_booking emptyStore emptyBlocks [] (mkDate 2025 9 1)
    (mkDate 2025 9 3) 1 false (mkDate 2025 9 3, 600) 3 1 "과학 수업" "1234" 0
    (by decide) (by decide)

/-- Claim C5: `can_book` evaluates in the source's order and returns the
matching reason: an admin is always allowed; otherwise an actor whose grade
equals the week's assigned grade (when one is set, i.e. truthy) is allowed;
otherwise the actor is allowed exactly when `now >= open_dt`; otherwise the
request is denied with a message containing the formatted open timestamp. -/
theorem can_book_spec (is_admin : Bool) (assigned : Option Int)
    (open_dt now : Nat × Nat) (grade : Int) :
    (is_admin = true →
      can_book is_admin assigned open_dt now grade =
        (true, "관리자 권한으로 예약 가능")) ∧
    (is_admin = false → assigned = some grade → grade ≠ 0 →
      can_book is_admin assigned open_dt now grade =
        (true, "배정학년 우선 예약 기간")) ∧
    (is_admin = false →
      (assigned_truthy assigned = false ∨ assigned ≠ some grade) →
      dt_le open_dt now = true →
      can_book is_admin assigned open_dt now grade =
        (true, "비배정학년 예약 오픈 기간")) ∧
    (is_admin = false →
      (assigned_truthy assigned = false ∨ assigned ≠ some grade) →
      dt_le open_dt now = false →
      can_book is_admin assigned open_dt now grade =
        (false,
         "비배정학년은 " ++ format_mmdd_hhmm open_dt ++ " 이후 예약 가능") ∧
      ∃ pre post, (can_book is_admin assigned open_dt now grade).2 =
        pre ++ format_mmdd_hhmm open_dt ++ post) := by
  have hcond : ∀ h : assigned_truthy assigned = false ∨ assigned ≠ some grade,
      (assigned_truthy assigned && (assigned == some grade)) = false := by
    rintro (h | h)
    · simp [h]
    · simp [beq_eq_false_iff_ne, h]
  refine ⟨?_, ?_, ?_, ?_⟩
  · intro h; subst h; rfl
  · intro h ha hg
    subst h; subst ha
    simp [can_book, assigned_truthy, hg]
  · intro h hc hdt
    subst h
    simp [can_book, hcond hc, hdt]
  · intro h hc hdt
    subst h
    have heq : can_book false assigned open_dt now grade =
        (false,
         "비배정학년은 " ++ format_mmdd_hhmm open_dt ++ " 이후 예약 가능") := by
      simp [can_book, hcond hc, hdt]
    exact ⟨heq, "비배정학년은 ", " 이후 예약 가능", by rw [heq]⟩

/-- Claim C5 witness: the four decision branches at concrete inputs (open
time 07:00 on ordinal day 100). -/
theorem can_book_spec_witness :
    can_book true none (100, 420) (100, 500) 3 =
      (true, "관리자 권한으로 예약 가능") ∧
    can_book false (some 3) (100, 420) (100, 0) 3 =
      (true, "배정학년 우선 예약 기간") ∧
    can_book false (some 2) (100, 420) (100, 500) 3 =
      (true, "비배정학년 예약 오픈 기간") ∧
    can_book false (some 2) (100, 420) (100, 0) 3 =
      (false, "비배정학년은 " ++ format_mmdd_hhmm (100, 420) ++ " 이후 예약 가능") :=
  ⟨(can_book_spec true none (100, 420) (100, 500) 3).1 rfl,
   (can_book_spec false (some 3) (100, 420) (100, 0) 3).2.1 rfl rfl
      (by decide),
   (can_book_spec false (some 2) (100, 420) (100, 500) 3).2.2.1 rfl
      (Or.inr (by decide)) (by decide),
   ((can_book_spec false (some 2) (100, 420) (100, 0) 3).2.2.2 rfl
      (Or.inr (by decide)) (by decide)).1⟩

/-- Claim C6: `build_period_table 6` maps period 1 to 08:50–09:30 (minutes
530–570) and period 2 to a 09:40 start (580); every period lasts exactly 40
minutes; each consecutive period starts exactly 10 minutes after the
previous one ends; and no gap follows the last period: the table holds
exactly periods 1–6 and period 6 ends at 13:40 (820 = 530 + 6·40 + 5·10,
i.e. breaks only between consecutive periods). -/
theorem build_period_table_spec :
    period_table_get (build_period_table 6) 1 = (8 * 60 + 50, 9 * 60 + 30) ∧
    period_table_get (build_period_table 6) 2 = (9 * 60 + 40, 10 * 60 + 20) ∧
    (build_period_table 6).map (fun e => e.1) = [1, 2, 3, 4, 5, 6] ∧
    (∀ e ∈ build_period_table 6, e.2.2 = e.2.1 + 40) ∧
    (∀ q ∈ (build_period_table 6).zip (build_period_table 6).tail,
      q.2.2.1 = q.1.2.2 + 10) ∧
    (build_period_table 6).getLast? = some (6, 780, 820) := by decide

/-- Claim C7: for every Monday `m` (weekday 0, at least four days into the
calendar so the subtraction is exact), `open_time_for_week m` is 07:00 KST
on the date four calendar days before `m`, which is a Thursday (weekday 3)
of the prior week; in particular the open time for Monday 2025-09-08 is
2025-09-04 07:00. -/
theorem open_time_for_week_spec (m : Nat) (hm : weekday m = 0) (h4 : 4 ≤ m) :
    open_time_for_week m = (m - 4, 7 * 60) ∧ weekday (m - 4) = 3 ∧
    open_time_for_week (mkDate 2025 9 8) = (mkDate 2025 9 4, 7 * 60) := by
  refine ⟨rfl, ?_, by decide⟩
  unfold weekday at hm ⊢
  omega

/-- Claim C7 witness: the Monday 2025-09-08. -/
theorem open_time_for_week_spec_witness :
    open_time_for_week (mkDate 2025 9 8) = (mkDate 2025 9 8 - 4, 7 * 60) ∧
    weekday (mkDate 2025 9 8 - 4) = 3 := by
  have h := open_time_for_week_spec (mkDate 2025 9 8) (by decide) (by decide)
  exact ⟨h.1, h.2.1⟩

/-- Claim C8: the effective weekly table `ASSIGN` is the key-by-key merge of
the compiled defaults under the persisted overrides (a Python dict, hence
with pairwise-distinct keys): for every key the overrides hold, the merged
value is the override's; for every key they do not hold, it is the default
table's value — present or absent — so the override wins key by key rather
than replacing the table wholesale. -/
theorem assign_overlay_precedence (ov : List (String × Int)) (k : String)
    (hnd : (ov.map Prod.fst).Nodup) :
    (∀ v, dictGet ov k = some v → dictGet (ASSIGN ov) k = some v) ∧
    (dictGet ov k = none → dictGet (ASSIGN ov) k = dictGet ASSIGN_DEFAULTS k) := by
  have h := dictGet_dictMerge ov hnd ASSIGN_DEFAULTS k
  unfold ASSIGN
  constructor
  · intro v hv
    rw [h, hv]
  · intro hv
    rw [h, hv]

/-- Claim C8 witness: an override for Monday 2025-09-08 (default grade 1)
replaces the default with grade 5, while Monday 2025-09-15, absent from the
override, falls through to the default table. -/
theorem assign_overlay_precedence_witness :
    dictGet (ASSIGN [("2025-09-08", 5)]) "2025-09-08" = some 5 ∧
    dictGet (ASSIGN [("2025-09-08", 5)]) "2025-09-15" =
      dictGet ASSIGN_DEFAULTS "2025-09-15" :=
  ⟨(assign_overlay_precedence [("2025-09-08", 5)] "2025-09-08"
      (by decide)).1 5 (by decide),
   (assign_overlay_precedence [("2025-09-08", 5)] "2025-09-15"
      (by decide)).2 (by decide)⟩

/-- Claim C9: with no persisted overrides, the effective table maps Monday
2025-09-08 to grade 1; Monday 2025-10-06 is the week at index 4 of the
21-week default sequence, and looking that week up yields `none` (no
assigned grade) rather than an error. -/
theorem assign_defaults_spec :
    assigned_grade_for_week (mkDate 2025 9 8) [] = some 1 ∧
    ASSIGN_DEFAULT_START + 7 * 4 = mkDate 2025 10 6 ∧
    ASSIGN_DEFAULT_SEQUENCE.get? 4 = some none ∧
    assigned_grade_for_week (mkDate 2025 10 6) [] = none := by decide

end Dran
